import Mathlib

/-!
Conversor de Divisas: the conversion engine of `src/App.js`.

A shallow embedding of the state and the event handlers of the `App` component
(`convertCurrency`, `fetchRates`, `swapCurrencies`, `saveToStorage`, ...) together with
the properties of the rate-acquisition-and-conversion engine.

Numbers: a JavaScript number is modelled by `JSNum`, a rational value or one of `NaN`,
`+Infinity`, `-Infinity`.  Arithmetic on finite values is exact (no rounding to a
double, no signed zero); the special values follow the IEEE rules JavaScript uses.
-/

namespace Conversor

/-! ## JavaScript numbers -/

/-- A JavaScript number: a finite value, `NaN`, `Infinity` or `-Infinity`. -/
inductive JSNum where
  | fin (q : ℚ)
  | nan
  | posInf
  | negInf
  deriving DecidableEq

namespace JSNum

/-- Unary minus. -/
def neg : JSNum → JSNum
  | fin q => fin (-q)
  | nan => nan
  | posInf => negInf
  | negInf => posInf

/-- An infinity of the sign of `q` (for `q ≠ 0`). -/
def infOfSign (q : ℚ) : JSNum := if 0 < q then posInf else negInf

/-- The JavaScript `*` on numbers; a finite product is the exact product (it is not
rounded to a double and does not overflow). -/
def mul : JSNum → JSNum → JSNum
  | nan, _ => nan
  | _, nan => nan
  | fin a, fin b => fin (a * b)
  | fin a, posInf => if a = 0 then nan else infOfSign a
  | fin a, negInf => if a = 0 then nan else infOfSign (-a)
  | posInf, fin b => if b = 0 then nan else infOfSign b
  | negInf, fin b => if b = 0 then nan else infOfSign (-b)
  | posInf, posInf => posInf
  | posInf, negInf => negInf
  | negInf, posInf => negInf
  | negInf, negInf => posInf

/-- The JavaScript `/` on numbers; a finite quotient is the exact quotient (it is
not rounded to a double), and a zero divisor is `+0` (there is no `-0`). -/
def div : JSNum → JSNum → JSNum
  | nan, _ => nan
  | _, nan => nan
  | fin a, fin b => if b = 0 then (if a = 0 then nan else infOfSign a) else fin (a / b)
  | fin _, posInf => fin 0
  | fin _, negInf => fin 0
  | posInf, fin b => if b < 0 then negInf else posInf
  | negInf, fin b => if b < 0 then posInf else negInf
  | posInf, posInf => nan
  | posInf, negInf => nan
  | negInf, posInf => nan
  | negInf, negInf => nan

/-- The global `isNaN` on a number. -/
def isNaN : JSNum → Bool
  | nan => true
  | _ => false

/-- The global `isFinite` on a number. -/
def isFinite : JSNum → Bool
  | fin _ => true
  | _ => false

end JSNum

/-- The `ToNumber` of the value of a property read: a missing property is `undefined`,
and `undefined` is `NaN` in arithmetic. -/
def toNumber : Option JSNum → JSNum
  | some v => v
  | none => JSNum.nan

/-! ## `parseFloat` -/

/-- The characters `parseFloat` skips at the start of its input (`StrWhiteSpaceChar`). -/
def isStrWhiteSpaceChar (c : Char) : Bool :=
  let n := c.toNat
  n == 9 || n == 10 || n == 11 || n == 12 || n == 13 || n == 32 || n == 160 ||
  n == 5760 || (8192 ≤ n && n ≤ 8202) || n == 8232 || n == 8233 || n == 8239 ||
  n == 8287 || n == 12288 || n == 65279

/-- A decimal digit `0`..`9`. -/
def isDecimalDigit (c : Char) : Bool := 48 ≤ c.toNat && c.toNat ≤ 57

/-- The value of a run of decimal digits. -/
def decimalValue (ds : List Char) : ℕ :=
  ds.foldl (fun acc c => 10 * acc + (c.toNat - 48)) 0

/-- Ten to an integer power. -/
def pow10 (e : ℤ) : ℚ :=
  if 0 ≤ e then (10 : ℚ) ^ e.toNat else 1 / (10 : ℚ) ^ (-e).toNat

/-- The exponent denoted by an `ExponentPart` at the start of `cs`
(`e` or `E`, an optional sign, at least one digit), `0` when there is none. -/
def exponentPart : List Char → ℤ
  | [] => 0
  | c :: rest =>
    if c = 'e' ∨ c = 'E' then
      match rest with
      | '+' :: r =>
        let ds := r.takeWhile isDecimalDigit
        if ds = [] then 0 else (decimalValue ds : ℤ)
      | '-' :: r =>
        let ds := r.takeWhile isDecimalDigit
        if ds = [] then 0 else -(decimalValue ds : ℤ)
      | r =>
        let ds := r.takeWhile isDecimalDigit
        if ds = [] then 0 else (decimalValue ds : ℤ)
    else 0

/-- The value of the longest start of `cs` that is a `StrUnsignedDecimalLiteral`
(`Infinity`, `digits`, `digits.digits`, `digits.`, `.digits`, each with an optional
exponent), `none` when no start of `cs` is one. -/
def strUnsignedDecimalLiteral (cs : List Char) : Option JSNum :=
  if cs.take 8 = ['I', 'n', 'f', 'i', 'n', 'i', 't', 'y'] then some JSNum.posInf
  else
    let ip := cs.takeWhile isDecimalDigit
    let r1 := cs.dropWhile isDecimalDigit
    match r1 with
    | '.' :: r =>
      let fp := r.takeWhile isDecimalDigit
      let r2 := r.dropWhile isDecimalDigit
      if ip = [] ∧ fp = [] then none
      else some (JSNum.fin
        ((decimalValue (ip ++ fp) : ℚ) / (10 : ℚ) ^ fp.length * pow10 (exponentPart r2)))
    | _ =>
      if ip = [] then none
      else some (JSNum.fin ((decimalValue ip : ℚ) * pow10 (exponentPart r1)))

/-- The global `parseFloat` on a string: leading white space is skipped, then the
longest start that is a signed decimal literal is read; `NaN` when there is none.
The value read is the exact decimal value (it is not rounded to the nearest double
and does not overflow to `Infinity`). -/
def parseFloat (s : String) : JSNum :=
  match s.toList.dropWhile isStrWhiteSpaceChar with
  | '+' :: r => (strUnsignedDecimalLiteral r).getD JSNum.nan
  | '-' :: r => JSNum.neg ((strUnsignedDecimalLiteral r).getD JSNum.nan)
  | r => (strUnsignedDecimalLiteral r).getD JSNum.nan

/-! ## Data model -/

/-- The rate object `rates` (`data.rates` of the feed): currency code to rate,
quoted against the base currency ARS. -/
abbrev RateTable := List (String × JSNum)

/-- A property read `rates[code]`: the entry, or `undefined` when there is none. -/
def RateTable.get (t : RateTable) (code : String) : Option JSNum := t.lookup code

/-- A history record, the `newEntry` object of `convertCurrency`. -/
structure Entry where
  id : ℕ
  from_ : String
  to_ : String
  amount : JSNum
  result : JSNum
  timestamp : String
  deriving DecidableEq

/-- The object stored under `converter-rates`. -/
structure RatesData where
  rates : Option RateTable
  timestamp : String
  deriving DecidableEq

/-- A value handed to `saveToStorage` (the argument of `JSON.stringify`). -/
inductive Stored where
  | history (h : List Entry)
  | ratesData (d : RatesData)
  deriving DecidableEq

/-- The browser's `localStorage`: key to stored value. -/
abbrev LocalStorage := List (String × Stored)

/-- The call `localStorage.getItem(key)`. -/
def LocalStorage.getItem (ls : LocalStorage) (key : String) : Option Stored := ls.lookup key

/-- The call `localStorage.setItem(key, value)`. -/
def LocalStorage.setItem (ls : LocalStorage) (key : String) (v : Stored) : LocalStorage :=
  (key, v) :: ls.filter (fun kv => kv.1 != key)

/-- The call `localStorage.removeItem(key)`. -/
def LocalStorage.removeItem (ls : LocalStorage) (key : String) : LocalStorage :=
  ls.filter (fun kv => kv.1 != key)

/-- The state of the `App` component (its `useState` cells) and of `localStorage`. -/
structure State where
  amount : String
  fromCurrency : String
  toCurrency : String
  rates : Option RateTable
  result : Option JSNum
  loading : Bool
  history : List Entry
  showHistory : Bool
  lastUpdate : Option String
  isOnline : Bool
  error : Option String
  localStorage : LocalStorage
  deriving DecidableEq

/-- The codes of the `currencies` table. -/
def currencies : List String := ["ARS", "USD", "EUR", "GBP", "JPY"]

/-- The state of the first render, over a given `localStorage`. -/
def initialState (ls : LocalStorage) : State where
  amount := "1000"
  fromCurrency := "ARS"
  toCurrency := "USD"
  rates := none
  result := none
  loading := false
  history := []
  showHistory := false
  lastUpdate := none
  isOnline := true
  error := none
  localStorage := ls

/-! ## Handlers -/

/-- The helper `saveToStorage(key, value)`: `setItem` inside a `try`; when `setItem` throws
(`setItemOk = false`) the failure is logged and the store is left as it was. -/
def saveToStorage (setItemOk : Bool) (key : String) (v : Stored) (ls : LocalStorage) :
    LocalStorage :=
  if setItemOk then ls.setItem key v else ls

/-- What a run of `convertCurrency` reads from its environment: `Date.now()`,
`new Date().toISOString()`, and whether `localStorage.setItem` succeeds. -/
structure ConvertEnv where
  now : ℕ
  isoNow : String
  setItemOk : Bool
  deriving DecidableEq

/-- Lines 96-104 of `convertCurrency`: the converted amount for a parsed amount. -/
def convertedAmount (rates : RateTable) (fromCurrency toCurrency : String)
    (numAmount : JSNum) : JSNum :=
  if fromCurrency = "ARS" then
    JSNum.mul numAmount (toNumber (rates.get toCurrency))
  else if toCurrency = "ARS" then
    JSNum.div numAmount (toNumber (rates.get fromCurrency))
  else
    let toARS := JSNum.div numAmount (toNumber (rates.get fromCurrency))
    JSNum.mul toARS (toNumber (rates.get toCurrency))

/-- The handler `convertCurrency`. -/
def convertCurrency (env : ConvertEnv) (s : State) : State :=
  match s.rates with
  | none => s
  | some rates =>
    if s.amount = "" then s
    else
      let numAmount := parseFloat s.amount
      if numAmount.isNaN then s
      else
        let convertedAmount := convertedAmount rates s.fromCurrency s.toCurrency numAmount
        let newEntry : Entry :=
          { id := env.now
            from_ := s.fromCurrency
            to_ := s.toCurrency
            amount := numAmount
            result := convertedAmount
            timestamp := env.isoNow }
        let newHistory := (newEntry :: s.history).take 20
        { s with
          result := some convertedAmount
          history := newHistory
          localStorage :=
            saveToStorage env.setItemOk "converter-history" (Stored.history newHistory)
              s.localStorage }

/-- The handler `swapCurrencies`. -/
def swapCurrencies (s : State) : State :=
  { s with fromCurrency := s.toCurrency, toCurrency := s.fromCurrency, result := none }

/-- The handler `clearHistory`. -/
def clearHistory (s : State) : State :=
  { s with history := [], localStorage := s.localStorage.removeItem "converter-history" }

/-- The `onChange` of the amount input: `setAmount(e.target.value)`. -/
def setAmount (v : String) (s : State) : State := { s with amount := v }

/-- The `onChange` of the source select. -/
def selectFromCurrency (v : String) (s : State) : State :=
  { s with fromCurrency := v, result := none }

/-- The `onChange` of the target select. -/
def selectToCurrency (v : String) (s : State) : State :=
  { s with toCurrency := v, result := none }

/-- What `response.json()` gives: it rejects (or the value read has no properties,
so that `data.result` throws), or it is an object with its `result` and `rates`. -/
inductive FeedBody where
  | jsonError
  | data (result : Option String) (rates : Option RateTable)
  deriving DecidableEq

/-- How the call `fetch(...)` of `fetchRates` ends: it rejects (network error), or
it resolves to a response with its `ok` flag and body. -/
inductive FetchOutcome where
  | networkError
  | response (ok : Bool) (body : FeedBody)
  deriving DecidableEq

/-- What a run of `fetchRates` reads from its environment. -/
structure FetchEnv where
  outcome : FetchOutcome
  isoNow : String
  setItemOk : Bool
  deriving DecidableEq

/-- The `catch` block of `fetchRates`; `rates` is the value the handler closed over. -/
def fetchRatesCatch (rates : Option RateTable) (s : State) : State :=
  let s1 := { s with error := some "No se pudo conectar. Usando valores guardados.",
                     isOnline := false }
  if rates.isNone then
    { s1 with error := some "No hay conexión y no hay datos guardados." }
  else s1

/-- The handler `fetchRates`, run to completion on the outcome of its `fetch`. -/
def fetchRates (env : FetchEnv) (s : State) : State :=
  let s1 := { s with loading := true, error := none }
  let s2 :=
    match env.outcome with
    | FetchOutcome.networkError => fetchRatesCatch s.rates s1
    | FetchOutcome.response false _ => fetchRatesCatch s.rates s1
    | FetchOutcome.response true FeedBody.jsonError => fetchRatesCatch s.rates s1
    | FetchOutcome.response true (FeedBody.data result rates) =>
      if result = some "success" then
        { s1 with
          rates := rates
          lastUpdate := some env.isoNow
          isOnline := true
          localStorage :=
            saveToStorage env.setItemOk "converter-rates"
              (Stored.ratesData { rates := rates, timestamp := env.isoNow }) s1.localStorage }
      else s1
  { s2 with loading := false }

/-! ## Runs of conversions -/

/-- One conversion as the user performs it: the amount and the two currencies are
entered, then the convert button is pressed. -/
structure ConversionStep where
  amount : String
  fromCurrency : String
  toCurrency : String
  env : ConvertEnv
  deriving DecidableEq

/-- The handlers run by one `ConversionStep`. -/
def performStep (s : State) (c : ConversionStep) : State :=
  convertCurrency c.env
    (selectToCurrency c.toCurrency (selectFromCurrency c.fromCurrency (setAmount c.amount s)))

/-- A sequence of conversions, first to last. -/
def runSteps (s : State) (cs : List ConversionStep) : State := cs.foldl performStep s

/-- The record a successful conversion step makes under the rate table `t`. -/
def recordOf (t : RateTable) (c : ConversionStep) : Entry where
  id := c.env.now
  from_ := c.fromCurrency
  to_ := c.toCurrency
  amount := parseFloat c.amount
  result := convertedAmount t c.fromCurrency c.toCurrency (parseFloat c.amount)
  timestamp := c.env.isoNow

/-! ## Example states -/

/-- The rate table of the spec's example scenario. -/
def exampleRates : RateTable :=
  [("USD", JSNum.fin (11 / 10000)), ("EUR", JSNum.fin (95 / 100000))]

/-- An environment for examples. -/
def exampleEnv : ConvertEnv := { now := 1700000000000, isoNow := "2023-11-14T22:13:20.000Z", setItemOk := true }

/-- The first render with `exampleRates` loaded: 1000 ARS to USD. -/
def exampleState : State := { initialState [] with rates := some exampleRates }

/-- Twenty-five conversions of 1000 ARS to USD, made at times 0, 1, ..., 24. -/
def exampleSteps : List ConversionStep :=
  (List.range 25).map fun i =>
    { amount := "1000"
      fromCurrency := "ARS"
      toCurrency := "USD"
      env := { now := i, isoNow := "2023-11-14T22:13:20.000Z", setItemOk := true } }

/-! ## Basic facts -/

theorem parseFloat_empty : parseFloat "" = JSNum.nan := by decide!

theorem JSNum.mul_nan_right (x : JSNum) : JSNum.mul x JSNum.nan = JSNum.nan := by
  cases x <;> rfl

theorem JSNum.mul_nan_left (x : JSNum) : JSNum.mul JSNum.nan x = JSNum.nan := by
  cases x <;> rfl

theorem JSNum.div_nan_right (x : JSNum) : JSNum.div x JSNum.nan = JSNum.nan := by
  cases x <;> rfl

theorem JSNum.div_nan_left (x : JSNum) : JSNum.div JSNum.nan x = JSNum.nan := by
  cases x <;> rfl

/-- The `newEntry` object `convertCurrency` builds in state `s` under the table `t`. -/
def newEntryOf (env : ConvertEnv) (s : State) (t : RateTable) : Entry where
  id := env.now
  from_ := s.fromCurrency
  to_ := s.toCurrency
  amount := parseFloat s.amount
  result := convertedAmount t s.fromCurrency s.toCurrency (parseFloat s.amount)
  timestamp := env.isoNow

/-- What `convertCurrency` does once both guards are passed. -/
theorem convertCurrency_of_numeric (env : ConvertEnv) (s : State) (t : RateTable)
    (hr : s.rates = some t) (hx : (parseFloat s.amount).isNaN = false) :
    convertCurrency env s =
      { s with
        result := some (convertedAmount t s.fromCurrency s.toCurrency (parseFloat s.amount))
        history := List.take 20 (newEntryOf env s t :: s.history)
        localStorage :=
          saveToStorage env.setItemOk "converter-history"
            (Stored.history (List.take 20 (newEntryOf env s t :: s.history)))
            s.localStorage } := by
  have hne : s.amount ≠ "" := by
    intro h
    rw [h, parseFloat_empty] at hx
    exact absurd hx (by decide)
  unfold convertCurrency
  simp only [hr, hne, hx, if_false]
  rfl

/-! ## The conversion formula -/

/-- C1: for a present rate table `t` and an amount that reads as the number `x`,
`convertCurrency` sets the result to `x * t[to]` when the source is ARS, to
`x / t[from]` when the target is ARS and the source is not, and to
`(x / t[from]) * t[to]` when neither is ARS; the value is stored as computed, and
the same value is the `result` of the record placed at the head of the history. -/
theorem convertCurrency_sets_reference_value (env : ConvertEnv) (s : State)
    (t : RateTable) (x : JSNum)
    (hr : s.rates = some t) (ha : parseFloat s.amount = x) (hx : x.isNaN = false) :
    (s.fromCurrency = "ARS" →
      (convertCurrency env s).result = some (JSNum.mul x (toNumber (t.get s.toCurrency)))) ∧
    (s.fromCurrency ≠ "ARS" → s.toCurrency = "ARS" →
      (convertCurrency env s).result
        = some (JSNum.div x (toNumber (t.get s.fromCurrency)))) ∧
    (s.fromCurrency ≠ "ARS" → s.toCurrency ≠ "ARS" →
      (convertCurrency env s).result
        = some (JSNum.mul (JSNum.div x (toNumber (t.get s.fromCurrency)))
            (toNumber (t.get s.toCurrency)))) ∧
    ((convertCurrency env s).history.head?).map Entry.result
      = (convertCurrency env s).result := by
  subst ha
  rw [convertCurrency_of_numeric env s t hr hx]
  refine ⟨?_, ?_, ?_, ?_⟩
  · intro hf
    simp [convertedAmount, hf]
  · intro hf ht
    simp [convertedAmount, hf, ht]
  · intro hf ht
    simp [convertedAmount, hf, ht]
  · simp [newEntryOf]

/-- The instance of C1 at `exampleState`: 1000 ARS to USD at rate 0.0011. -/
theorem convertCurrency_sets_reference_value_witness :
    (exampleState.fromCurrency = "ARS" →
      (convertCurrency exampleEnv exampleState).result
        = some (JSNum.mul (JSNum.fin 1000)
            (toNumber (exampleRates.get exampleState.toCurrency)))) ∧
    (exampleState.fromCurrency ≠ "ARS" → exampleState.toCurrency = "ARS" →
      (convertCurrency exampleEnv exampleState).result
        = some (JSNum.div (JSNum.fin 1000)
            (toNumber (exampleRates.get exampleState.fromCurrency)))) ∧
    (exampleState.fromCurrency ≠ "ARS" → exampleState.toCurrency ≠ "ARS" →
      (convertCurrency exampleEnv exampleState).result
        = some (JSNum.mul (JSNum.div (JSNum.fin 1000)
            (toNumber (exampleRates.get exampleState.fromCurrency)))
            (toNumber (exampleRates.get exampleState.toCurrency)))) ∧
    ((convertCurrency exampleEnv exampleState).history.head?).map Entry.result
      = (convertCurrency exampleEnv exampleState).result :=
  convertCurrency_sets_reference_value exampleEnv exampleState exampleRates
    (JSNum.fin 1000) rfl (by decide!) rfl

/-- C3: pivot consistency.  For every amount `x`, every rate table `t` and all
currencies `A`, `B` other than ARS, converting `x` from `A` to ARS and the outcome
from ARS to `B` gives the value of converting `x` from `A` to `B` directly. -/
theorem pivot_consistency (t : RateTable) (A B : String) (x : JSNum)
    (hA : A ≠ "ARS") (hB : B ≠ "ARS") :
    convertedAmount t "ARS" B (convertedAmount t A "ARS" x) = convertedAmount t A B x := by
  simp [convertedAmount, hA, hB]

/-- The instance of C3 for 100 EUR to USD through ARS under `exampleRates`. -/
theorem pivot_consistency_witness :
    convertedAmount exampleRates "ARS" "USD"
        (convertedAmount exampleRates "EUR" "ARS" (JSNum.fin 100))
      = convertedAmount exampleRates "EUR" "USD" (JSNum.fin 100) :=
  pivot_consistency exampleRates "EUR" "USD" (JSNum.fin 100) (by decide) (by decide)

/-! ## Same-currency conversion -/

/-- A state asking for 1000 ARS to ARS over a table without an ARS entry. -/
def sameCurrencyState : State := { exampleState with toCurrency := "ARS" }

/-- A state asking for 1000 USD to USD over a table whose USD rate is 0. -/
def zeroRateState : State :=
  { exampleState with
    fromCurrency := "USD", toCurrency := "USD", rates := some [("USD", JSNum.fin 0)] }

/-- C2, as stated, fails: 1000 ARS to ARS over a table with no ARS entry reads
`rates["ARS"]`, and the result is `NaN`, not 1000; 1000 USD to USD over a table whose
USD rate is 0 is `Infinity * 0`, again `NaN`. -/
theorem same_currency_not_identity :
    sameCurrencyState.fromCurrency = sameCurrencyState.toCurrency ∧
    parseFloat sameCurrencyState.amount = JSNum.fin 1000 ∧
    sameCurrencyState.rates = some exampleRates ∧
    exampleRates.get "ARS" = none ∧
    (convertCurrency exampleEnv sameCurrencyState).result = some JSNum.nan ∧
    (convertCurrency exampleEnv sameCurrencyState).result ≠ some (JSNum.fin 1000) ∧
    zeroRateState.fromCurrency = zeroRateState.toCurrency ∧
    (convertCurrency exampleEnv zeroRateState).result = some JSNum.nan := by
  decide!

/-- A state asking for 1000 ARS to ARS over `exampleRates` extended with the ARS
entry 1, as the feed for base ARS quotes it. -/
def arsToArsState : State :=
  { exampleState with
    toCurrency := "ARS", rates := some (("ARS", JSNum.fin 1) :: exampleRates) }

/-- C2, amended: when source and target are the same currency `a` and the amount
reads as the number `x`, `convertCurrency` goes through the rate lookup.  For ARS
the result is `x * t[ARS]`, which is exactly `x` when the ARS entry is 1; for any
other `a` the result is `(x / t[a]) * t[a]`; and with no entry for `a` the result is
`NaN`. -/
theorem same_currency_through_rate_lookup (env : ConvertEnv) (s : State)
    (t : RateTable) (a : String) (x : JSNum)
    (hr : s.rates = some t) (hf : s.fromCurrency = a) (hto : s.toCurrency = a)
    (ha : parseFloat s.amount = x) (hx : x.isNaN = false) :
    (a = "ARS" →
      (convertCurrency env s).result = some (JSNum.mul x (toNumber (t.get "ARS")))) ∧
    (a = "ARS" → t.get "ARS" = some (JSNum.fin 1) →
      (convertCurrency env s).result = some x) ∧
    (a ≠ "ARS" →
      (convertCurrency env s).result
        = some (JSNum.mul (JSNum.div x (toNumber (t.get a))) (toNumber (t.get a)))) ∧
    (t.get a = none → (convertCurrency env s).result = some JSNum.nan) := by
  subst ha
  rw [convertCurrency_of_numeric env s t hr hx]
  simp only [hf, hto]
  refine ⟨?_, ?_, ?_, ?_⟩
  · intro h
    simp [convertedAmount, h]
  · intro h h1
    subst h
    simp only [convertedAmount, if_true, h1, toNumber]
    cases hp : parseFloat s.amount with
    | fin q => simp [JSNum.mul]
    | nan => rw [hp] at hx; exact absurd hx (by decide)
    | posInf => simp [JSNum.mul, JSNum.infOfSign]
    | negInf => simp [JSNum.mul, JSNum.infOfSign]
  · intro h
    simp [convertedAmount, h]
  · intro hm
    by_cases h : a = "ARS"
    · subst h
      simp [convertedAmount, hm, toNumber, JSNum.mul_nan_right]
    · simp [convertedAmount, h, hm, toNumber, JSNum.mul_nan_right]

/-- The instance of the amended C2 for 1000 ARS to ARS with the ARS entry 1. -/
theorem same_currency_through_rate_lookup_witness :
    ("ARS" = "ARS" →
      (convertCurrency exampleEnv arsToArsState).result
        = some (JSNum.mul (JSNum.fin 1000)
            (toNumber (RateTable.get (("ARS", JSNum.fin 1) :: exampleRates) "ARS")))) ∧
    ("ARS" = "ARS" →
      RateTable.get (("ARS", JSNum.fin 1) :: exampleRates) "ARS" = some (JSNum.fin 1) →
      (convertCurrency exampleEnv arsToArsState).result = some (JSNum.fin 1000)) ∧
    ("ARS" ≠ "ARS" →
      (convertCurrency exampleEnv arsToArsState).result
        = some (JSNum.mul
            (JSNum.div (JSNum.fin 1000)
              (toNumber (RateTable.get (("ARS", JSNum.fin 1) :: exampleRates) "ARS")))
            (toNumber (RateTable.get (("ARS", JSNum.fin 1) :: exampleRates) "ARS")))) ∧
    (RateTable.get (("ARS", JSNum.fin 1) :: exampleRates) "ARS" = none →
      (convertCurrency exampleEnv arsToArsState).result = some JSNum.nan) :=
  same_currency_through_rate_lookup exampleEnv arsToArsState
    (("ARS", JSNum.fin 1) :: exampleRates) "ARS" (JSNum.fin 1000) rfl rfl rfl
    (by decide!) rfl

/-! ## The history ledger -/

theorem take_append_take {α : Type} (n : ℕ) (l m : List α) :
    List.take n (l ++ List.take n m) = List.take n (l ++ m) := by
  rw [List.take_append_eq_append_take, List.take_append_eq_append_take, List.take_take]
  congr 2
  omega

theorem getItem_setItem (ls : LocalStorage) (key : String) (v : Stored) :
    (ls.setItem key v).getItem key = some v := by
  simp [LocalStorage.setItem, LocalStorage.getItem]

/-- One successful conversion step, field by field. -/
theorem performStep_of_numeric (s : State) (t : RateTable) (c : ConversionStep)
    (hr : s.rates = some t) (hx : (parseFloat c.amount).isNaN = false) :
    (performStep s c).rates = some t ∧
    (performStep s c).history = List.take 20 (recordOf t c :: s.history) ∧
    (performStep s c).localStorage =
      saveToStorage c.env.setItemOk "converter-history"
        (Stored.history (List.take 20 (recordOf t c :: s.history))) s.localStorage := by
  unfold performStep
  rw [convertCurrency_of_numeric c.env _ t (by simpa [selectToCurrency, selectFromCurrency,
    setAmount] using hr) (by simpa [selectToCurrency, selectFromCurrency, setAmount] using hx)]
  simp [selectToCurrency, selectFromCurrency, setAmount, newEntryOf, recordOf, hr]

/-- The history after a run of successful steps from a state with rates whose
history is within the bound. -/
theorem runSteps_history (t : RateTable) (cs : List ConversionStep) :
    ∀ s : State, s.rates = some t → s.history.length ≤ 20 →
      (∀ c ∈ cs, (parseFloat c.amount).isNaN = false) →
      (runSteps s cs).rates = some t ∧
      (runSteps s cs).history = List.take 20 ((cs.map (recordOf t)).reverse ++ s.history) := by
  induction cs with
  | nil =>
    intro s hr hlen _
    refine ⟨hr, ?_⟩
    show s.history = List.take 20 ([] ++ s.history)
    rw [List.nil_append, List.take_of_length_le hlen]
  | cons c cs ih =>
    intro s hr _ hok
    obtain ⟨h1, h2, _⟩ := performStep_of_numeric s t c hr (hok c (List.mem_cons_self c cs))
    have hlen : (performStep s c).history.length ≤ 20 := by
      rw [h2, List.length_take]
      exact Nat.min_le_left _ _
    obtain ⟨h3, h4⟩ :=
      ih (performStep s c) h1 hlen (fun d hd => hok d (List.mem_cons_of_mem c hd))
    refine ⟨h3, ?_⟩
    show (runSteps (performStep s c) cs).history = _
    rw [h4, h2, take_append_take]
    simp

/-- C4: from an empty history, after any sequence `cs` of successful conversions the
history is the records made, newest first, cut to 20: its length is
`min cs.length 20`, it is the last 20 records made in reverse order of making, and
the last conversion, when its `setItem` succeeds, leaves that same sequence in
`localStorage` under `converter-history`. -/
theorem history_bound_and_order (s0 : State) (t : RateTable) (cs : List ConversionStep)
    (h0 : s0.history = []) (hr : s0.rates = some t)
    (hok : ∀ c ∈ cs, (parseFloat c.amount).isNaN = false) :
    (runSteps s0 cs).history = List.take 20 (cs.map (recordOf t)).reverse ∧
    (runSteps s0 cs).history.length = min cs.length 20 ∧
    (runSteps s0 cs).history
      = (List.drop (cs.length - 20) (cs.map (recordOf t))).reverse ∧
    (∀ (init : List ConversionStep) (c : ConversionStep),
      cs = init ++ [c] → c.env.setItemOk = true →
      (runSteps s0 cs).localStorage.getItem "converter-history"
        = some (Stored.history (runSteps s0 cs).history)) := by
  have hlen : s0.history.length ≤ 20 := by simp [h0]
  have hmain := (runSteps_history t cs s0 hr hlen hok).2
  rw [h0, List.append_nil] at hmain
  refine ⟨hmain, ?_, ?_, ?_⟩
  · rw [hmain, List.length_take, List.length_reverse, List.length_map]
    exact Nat.min_comm _ _
  · rw [hmain, List.take_reverse, List.length_map]
  · intro init c hcs hset
    subst hcs
    have hinit : ∀ d ∈ init, (parseFloat d.amount).isNaN = false :=
      fun d hd => hok d (List.mem_append_left _ hd)
    have hc : (parseFloat c.amount).isNaN = false :=
      hok c (List.mem_append_right _ (List.mem_singleton_self c))
    obtain ⟨hri, _⟩ := runSteps_history t init s0 hr hlen hinit
    obtain ⟨_, h2, h3⟩ := performStep_of_numeric (runSteps s0 init) t c hri hc
    have hrun : runSteps s0 (init ++ [c]) = performStep (runSteps s0 init) c := by
      simp [runSteps, List.foldl_append]
    rw [hrun, h3, h2, saveToStorage, hset]
    exact getItem_setItem _ _ _

/-- The instance of C4 for `exampleSteps` (25 conversions) from `exampleState`. -/
theorem history_bound_and_order_witness :
    (runSteps exampleState exampleSteps).history
      = List.take 20 (exampleSteps.map (recordOf exampleRates)).reverse ∧
    (runSteps exampleState exampleSteps).history.length = min exampleSteps.length 20 ∧
    (runSteps exampleState exampleSteps).history
      = (List.drop (exampleSteps.length - 20)
          (exampleSteps.map (recordOf exampleRates))).reverse ∧
    (∀ (init : List ConversionStep) (c : ConversionStep),
      exampleSteps = init ++ [c] → c.env.setItemOk = true →
      (runSteps exampleState exampleSteps).localStorage.getItem "converter-history"
        = some (Stored.history (runSteps exampleState exampleSteps).history)) :=
  history_bound_and_order exampleState exampleRates exampleSteps rfl rfl (by decide!)

/-! ## Refreshing the rates -/

/-- C5: when the feed call fails (the `fetch` rejects, or the response arrives with a
non-success transport status), `fetchRates` leaves the rate table and the last-update
time as they were and writes nothing to `localStorage`. -/
theorem fetchRates_failure_keeps_snapshot (env : FetchEnv) (s : State)
    (hfail : env.outcome = FetchOutcome.networkError ∨
      ∃ body, env.outcome = FetchOutcome.response false body) :
    (fetchRates env s).rates = s.rates ∧
    (fetchRates env s).lastUpdate = s.lastUpdate ∧
    (fetchRates env s).localStorage = s.localStorage ∧
    (fetchRates env s).localStorage.getItem "converter-rates"
      = s.localStorage.getItem "converter-rates" := by
  have key : (fetchRates env s).rates = s.rates ∧
      (fetchRates env s).lastUpdate = s.lastUpdate ∧
      (fetchRates env s).localStorage = s.localStorage := by
    rcases hfail with h | ⟨body, h⟩
    · simp only [fetchRates, h, fetchRatesCatch]
      split <;> exact ⟨rfl, rfl, rfl⟩
    · simp only [fetchRates, h, fetchRatesCatch]
      split <;> exact ⟨rfl, rfl, rfl⟩
  exact ⟨key.1, key.2.1, key.2.2, by rw [key.2.2]⟩

/-- A state with rates saved: `exampleRates`, captured and stored earlier. -/
def cachedState : State :=
  { exampleState with
    lastUpdate := some "2023-11-14T22:13:20.000Z"
    localStorage :=
      [("converter-rates",
        Stored.ratesData
          { rates := some exampleRates, timestamp := "2023-11-14T22:13:20.000Z" })] }

/-- A refresh whose response has status 503. -/
def failingFetchEnv : FetchEnv :=
  { outcome := FetchOutcome.response false FeedBody.jsonError
    isoNow := "2023-11-15T08:00:00.000Z"
    setItemOk := true }

/-- The instance of C5 for a 503 response received in `cachedState`. -/
theorem fetchRates_failure_keeps_snapshot_witness :
    (fetchRates failingFetchEnv cachedState).rates = cachedState.rates ∧
    (fetchRates failingFetchEnv cachedState).lastUpdate = cachedState.lastUpdate ∧
    (fetchRates failingFetchEnv cachedState).localStorage = cachedState.localStorage ∧
    (fetchRates failingFetchEnv cachedState).localStorage.getItem "converter-rates"
      = cachedState.localStorage.getItem "converter-rates" :=
  fetchRates_failure_keeps_snapshot failingFetchEnv cachedState
    (Or.inr ⟨FeedBody.jsonError, rfl⟩)

/-- A refresh whose response has status 200 and a body whose `result` is `error`
and which carries no `rates`. -/
def malformedFetchEnv : FetchEnv :=
  { outcome := FetchOutcome.response true (FeedBody.data (some "error") none)
    isoNow := "2023-11-15T08:00:00.000Z"
    setItemOk := true }

/-- C9 on the code: a response with a success status whose `result` is not
`success` leaves `cachedState` exactly as it was, with no error message and the
online indicator untouched, while the same refresh with a failing status sets the
message and turns the indicator off. -/
theorem fetchRates_malformed_is_silent :
    fetchRates malformedFetchEnv cachedState = cachedState ∧
    (fetchRates malformedFetchEnv cachedState).error = none ∧
    (fetchRates malformedFetchEnv cachedState).isOnline = true ∧
    (fetchRates failingFetchEnv cachedState).error
      = some "No se pudo conectar. Usando valores guardados." ∧
    (fetchRates failingFetchEnv cachedState).isOnline = false := by
  decide!

/-! ## Guards of the convert action -/

/-- C6: with no rates, `convertCurrency` changes nothing, whatever the amount and
the currencies: the result, the history and `localStorage` stay as they were. -/
theorem convertCurrency_without_rates (env : ConvertEnv) (s : State)
    (hr : s.rates = none) :
    convertCurrency env s = s ∧
    (convertCurrency env s).result = s.result ∧
    (convertCurrency env s).history = s.history ∧
    (convertCurrency env s).localStorage.getItem "converter-history"
      = s.localStorage.getItem "converter-history" := by
  have h : convertCurrency env s = s := by
    unfold convertCurrency
    rw [hr]
  rw [h]
  exact ⟨rfl, rfl, rfl, rfl⟩

/-- The instance of C6 at the first render over an empty `localStorage`. -/
theorem convertCurrency_without_rates_witness :
    convertCurrency exampleEnv (initialState []) = initialState [] ∧
    (convertCurrency exampleEnv (initialState [])).result = (initialState []).result ∧
    (convertCurrency exampleEnv (initialState [])).history = (initialState []).history ∧
    (convertCurrency exampleEnv (initialState [])).localStorage.getItem "converter-history"
      = (initialState []).localStorage.getItem "converter-history" :=
  convertCurrency_without_rates exampleEnv (initialState []) rfl

/-- The convert action asked for -5 ARS to USD. -/
def negativeAmountState : State := { exampleState with amount := "-5" }

/-- The convert action asked for `Infinity` ARS to USD. -/
def infiniteAmountState : State := { exampleState with amount := "Infinity" }

/-- C7, as stated, fails: the amount `-5` is converted (to -0.0055) and recorded,
and so is the amount `Infinity`; the result and the history both change. -/
theorem negative_amount_is_converted :
    parseFloat negativeAmountState.amount = JSNum.fin (-5) ∧
    negativeAmountState.result = none ∧
    negativeAmountState.history = [] ∧
    (convertCurrency exampleEnv negativeAmountState).result
      = some (JSNum.fin (-11 / 2000)) ∧
    (convertCurrency exampleEnv negativeAmountState).history.length = 1 ∧
    parseFloat infiniteAmountState.amount = JSNum.posInf ∧
    (convertCurrency exampleEnv infiniteAmountState).result = some JSNum.posInf ∧
    (convertCurrency exampleEnv infiniteAmountState).history.length = 1 := by
  decide!

/-- C7, amended: `convertCurrency` rejects every amount that is empty or that
`parseFloat` does not read as a number; for such an amount the whole state, the
history and the displayed result included, is left as it was. -/
theorem convertCurrency_rejects_non_number (env : ConvertEnv) (s : State)
    (hbad : s.amount = "" ∨ (parseFloat s.amount).isNaN = true) :
    convertCurrency env s = s ∧
    (convertCurrency env s).history = s.history ∧
    (convertCurrency env s).result = s.result := by
  have h : convertCurrency env s = s := by
    unfold convertCurrency
    cases s.rates with
    | none => rfl
    | some t =>
      rcases hbad with h | h
      · simp [h]
      · simp [h]
  rw [h]
  exact ⟨rfl, rfl, rfl⟩

/-- The instance of the amended C7 for the amount `abc`. -/
theorem convertCurrency_rejects_non_number_witness :
    convertCurrency exampleEnv { exampleState with amount := "abc" }
      = { exampleState with amount := "abc" } ∧
    (convertCurrency exampleEnv { exampleState with amount := "abc" }).history
      = ({ exampleState with amount := "abc" } : State).history ∧
    (convertCurrency exampleEnv { exampleState with amount := "abc" }).result
      = ({ exampleState with amount := "abc" } : State).result :=
  convertCurrency_rejects_non_number exampleEnv { exampleState with amount := "abc" }
    (Or.inr (by decide!))

/-- The convert action asked for 1000 ARS to GBP over `exampleRates`, which has no
GBP entry. -/
def missingRateState : State := { exampleState with toCurrency := "GBP" }

/-- C8, as stated, fails: 1000 ARS to GBP over a table with no GBP entry does not
fail; the result becomes `NaN` and a record with that result enters the history and
`localStorage`.  And 1000 ARS to ARS reads the ARS entry of the table. -/
theorem missing_rate_is_recorded :
    exampleRates.get "GBP" = none ∧
    missingRateState.result = none ∧
    missingRateState.history = [] ∧
    (convertCurrency exampleEnv missingRateState).result = some JSNum.nan ∧
    (convertCurrency exampleEnv missingRateState).history
      = [{ id := 1700000000000, from_ := "ARS", to_ := "GBP", amount := JSNum.fin 1000,
           result := JSNum.nan, timestamp := "2023-11-14T22:13:20.000Z" }] ∧
    (convertCurrency exampleEnv missingRateState).localStorage.getItem "converter-history"
      = some (Stored.history (convertCurrency exampleEnv missingRateState).history) ∧
    convertedAmount exampleRates "ARS" "ARS" (JSNum.fin 1000) = JSNum.nan ∧
    convertedAmount (("ARS", JSNum.fin 1) :: exampleRates) "ARS" "ARS" (JSNum.fin 1000)
      = JSNum.fin 1000 := by
  decide!

/-- C8, amended: when the table lacks an entry the formula reads (the target's when
the source is ARS, the source's when it is not, the target's too for a pair without
ARS), the conversion is not refused: the result becomes `NaN` and a record with the
result `NaN` is placed at the head of the history.  The ARS entry is read only by
ARS to ARS: for any other pair, two tables that agree off ARS give the same value. -/
theorem missing_rate_gives_nan (env : ConvertEnv) (s : State) (t : RateTable)
    (hr : s.rates = some t) (hx : (parseFloat s.amount).isNaN = false)
    (hmiss : (s.fromCurrency = "ARS" ∧ t.get s.toCurrency = none) ∨
      (s.fromCurrency ≠ "ARS" ∧ t.get s.fromCurrency = none) ∨
      (s.fromCurrency ≠ "ARS" ∧ s.toCurrency ≠ "ARS" ∧ t.get s.toCurrency = none)) :
    (convertCurrency env s).result = some JSNum.nan ∧
    (convertCurrency env s).history
      = List.take 20
          ({ id := env.now, from_ := s.fromCurrency, to_ := s.toCurrency,
             amount := parseFloat s.amount, result := JSNum.nan,
             timestamp := env.isoNow } :: s.history) ∧
    (∀ (u : RateTable) (a b : String) (x : JSNum),
      (∀ c, c ≠ "ARS" → u.get c = t.get c) → ¬ (a = "ARS" ∧ b = "ARS") →
      convertedAmount u a b x = convertedAmount t a b x) := by
  have hnan : convertedAmount t s.fromCurrency s.toCurrency (parseFloat s.amount)
      = JSNum.nan := by
    rcases hmiss with ⟨hf, hm⟩ | ⟨hf, hm⟩ | ⟨hf, ht, hm⟩
    · simp [convertedAmount, hf, hm, toNumber, JSNum.mul_nan_right]
    · by_cases ht : s.toCurrency = "ARS"
      · simp [convertedAmount, hf, ht, hm, toNumber, JSNum.div_nan_right]
      · simp [convertedAmount, hf, ht, hm, toNumber, JSNum.div_nan_right,
          JSNum.mul_nan_left]
    · simp [convertedAmount, hf, ht, hm, toNumber, JSNum.mul_nan_right]
  rw [convertCurrency_of_numeric env s t hr hx]
  refine ⟨?_, ?_, ?_⟩
  · simp [hnan]
  · simp [newEntryOf, hnan]
  · intro u a b x hu hab
    by_cases ha : a = "ARS"
    · have hb : b ≠ "ARS" := fun hb => hab ⟨ha, hb⟩
      simp [convertedAmount, ha, hu b hb]
    · by_cases hb : b = "ARS"
      · simp [convertedAmount, ha, hb, hu a ha]
      · simp [convertedAmount, ha, hb, hu a ha, hu b hb]

/-- The instance of the amended C8 at `missingRateState`. -/
theorem missing_rate_gives_nan_witness :
    (convertCurrency exampleEnv missingRateState).result = some JSNum.nan ∧
    (convertCurrency exampleEnv missingRateState).history
      = List.take 20
          ({ id := exampleEnv.now, from_ := missingRateState.fromCurrency,
             to_ := missingRateState.toCurrency,
             amount := parseFloat missingRateState.amount, result := JSNum.nan,
             timestamp := exampleEnv.isoNow } :: missingRateState.history) ∧
    (∀ (u : RateTable) (a b : String) (x : JSNum),
      (∀ c, c ≠ "ARS" → u.get c = exampleRates.get c) → ¬ (a = "ARS" ∧ b = "ARS") →
      convertedAmount u a b x = convertedAmount exampleRates a b x) :=
  missing_rate_gives_nan exampleEnv missingRateState exampleRates rfl (by decide!)
    (Or.inl ⟨rfl, by decide⟩)

/-! ## Swapping the currencies -/

/-- C10: in every state, `swapCurrencies` makes the old target the source and the
old source the target, sets the result to absent, and leaves the amount, the rates,
the last-update time, the history and `localStorage` as they were. -/
theorem swapCurrencies_exchanges_and_clears (s : State) :
    (swapCurrencies s).fromCurrency = s.toCurrency ∧
    (swapCurrencies s).toCurrency = s.fromCurrency ∧
    (swapCurrencies s).result = none ∧
    (swapCurrencies s).amount = s.amount ∧
    (swapCurrencies s).rates = s.rates ∧
    (swapCurrencies s).lastUpdate = s.lastUpdate ∧
    (swapCurrencies s).history = s.history ∧
    (swapCurrencies s).localStorage = s.localStorage :=
  ⟨rfl, rfl, rfl, rfl, rfl, rfl, rfl, rfl⟩

end Conversor
